import Mathlib

/-!
Verification development for the Local-LLM-Translator repository.

Shallow embedding of the change-gated monitor loop, the translation-task
pipeline, the similarity gate, the settings update and the websocket
fan-out, translated from the Python sources under src/.  Each claim C1-C10
of the specification is settled by a theorem in the second half of the
file.
-/

/-- A translation result as built by `ScreenTranslationService.translate_screen`
(src/app/models/responses.py, class TranslationResult).  The timestamp and
the processing-time fields carry wall-clock data with no logical content
and are omitted; ids are modelled as naturals. -/
structure TResult where
  id : Nat
  translation : String
  is_streaming : Bool
  stage : String
  deriving DecidableEq, Repr

/-- The timeout argument handed to each of the two backends during one run
of `translate_screen` (src/app/services/screen_service.py): `none` means the
backend was not invoked during that run. -/
structure BackendCalls where
  ocrTimeout : Option Nat
  translationTimeout : Option Nat
  deriving DecidableEq, Repr

/-- One run of `ScreenTranslationService.translate_screen`
(src/app/services/screen_service.py, lines 31-259), shallowly embedded.

The parameters stand for the behaviour of the external collaborators:
* `captureErr` - `some msg` when `screenshot_window` raises with message
  `msg`, `none` when it returns a frame;
* `ocrText` - the string returned by `OCRProvider.extract_text`; on an API
  error or timeout that method returns `""` (src/app/services/ocr_service.py,
  line 57);
* `streamYields` - the strings yielded by `stream_translation`; on an API
  error or timeout the generator yields a single `""`
  (src/app/services/translator_service.py, line 178).

The result is the list of `TranslationResult` values passed to
`stream_callback` in order, the value returned by `translate_screen`, and
the timeouts passed to the backends.  The synthetic "Running OCR..."
liveness events emitted by the progress thread repeat the ocr-stage event
at a fixed cadence and are omitted.  `translate_text` reports each
nonempty yielded string to the callback and returns the last nonempty one,
or `""` when there is none (src/app/services/translator_service.py,
lines 207-216). -/
def translateScreenModel (tid : Nat) (timeout : Nat) (captureErr : Option String)
    (ocrText : String) (streamYields : List String) :
    List TResult × TResult × BackendCalls :=
  let e0 : TResult := ⟨tid, "", true, "capturing"⟩
  match captureErr with
  | some msg =>
    let err : TResult := ⟨tid, "Error: " ++ msg, false, "error"⟩
    ([e0, err], err, ⟨none, none⟩)
  | none =>
    let e1 : TResult := ⟨tid, "", true, "ocr"⟩
    if ocrText = "" then
      let err : TResult := ⟨tid, "No text detected in image", false, "error"⟩
      ([e0, e1, err], err, ⟨some timeout, none⟩)
    else
      let e2 : TResult := ⟨tid, "", true, "translating"⟩
      let chunkEvents := (streamYields.filter (fun c => c != "")).map
        (fun c => (⟨tid, c, true, "translating"⟩ : TResult))
      let finalText := streamYields.foldl (fun acc c => if c != "" then c else acc) ""
      let fin : TResult :=
        ⟨tid, if finalText != "" then finalText else "Translation failed",
          false, "completed"⟩
      ([e0, e1, e2] ++ chunkEvents ++ [fin], fin, ⟨some timeout, some timeout⟩)

/-- State of the web variant around one in-flight translation task:
the module globals `translation_task_cancel` and the `is_running` flag of
the task state (src/app/routers/endpoints/translation.py, lines 30-31 and
130-144), together with the queue of `stream_callback` emissions the
in-flight `translate_screen` run has not yet delivered and the events
published so far. -/
structure WebTaskSys where
  cancelFlag : Bool
  is_running : Bool
  pending : List TResult
  published : List TResult
  deriving DecidableEq, Repr

/-- Interleavable events of the web variant: the pipeline delivering its
next `stream_callback` emission, and a POST /task/stop request running
`stop_task`. -/
inductive WebTaskEv where
  | emit
  | stop
  deriving DecidableEq, Repr

/-- Interleaving semantics of the web variant.  `stop_task` only sets
`translation_task_cancel` and flips `is_running` to false
(src/app/routers/endpoints/translation.py, lines 130-144); the flag is read
by the monitoring loop alone, and nothing in `translate_screen` or
`translate_text` consults it, so an emit step publishes the next pending
event whether or not the flag is set. -/
def webTaskStep (s : WebTaskSys) : WebTaskEv → WebTaskSys
  | .emit =>
    match s.pending with
    | [] => s
    | e :: rest => { s with pending := rest, published := s.published ++ [e] }
  | .stop => { s with cancelFlag := true, is_running := false }

/-- Run the web-variant system over a trace of interleaved events. -/
def webTaskRun (s : WebTaskSys) : List WebTaskEv → WebTaskSys
  | [] => s
  | e :: es => webTaskRun (webTaskStep s e) es

/-- Admission-relevant state of `TranslationService` in src/api.py:
`task_state.is_running` (a single boolean), `self.current_future` (set to
None in `__init__` on line 29 and never assigned anywhere else), and the
number of `_start_translation_task` coroutine bodies currently between
entry and their finally block.  The last component is an observation of the
interleaving, not a field of the Python object: the class itself can only
record one boolean. -/
structure ApiAdm where
  is_running : Bool
  currentFuture : Option Nat
  liveTasks : Nat
  deriving DecidableEq, Repr

/-- Scheduler events of the api variant.  `monitorTick` is a monitor-loop
cycle reaching the guard on src/api.py lines 193-195 with a fresh frame;
`force` is POST /translate/force running `force_translation` (lines
249-267) with a window selected; `stopTask` is POST /task/stop running
`stop_current_task` (lines 269-273); `taskEnd` is a running task body
reaching its finally block (lines 245-247). -/
inductive ApiEv where
  | monitorTick
  | force
  | stopTask
  | taskEnd
  deriving DecidableEq, Repr

/-- `stop_current_task` (src/api.py lines 269-273): the
`self.current_future.cancel()` branch is dead because `current_future` is
never assigned, so only the `is_running` flag is cleared; the live task
body, awaiting its backend call in the executor, is not affected. -/
def apiStopCurrent (s : ApiAdm) : ApiAdm :=
  { s with is_running := false }

/-- Entry of `_start_translation_task` (src/api.py lines 203-208): sets a
fresh running task state and begins executing alongside whatever other
bodies are still live. -/
def apiStartTask (s : ApiAdm) : ApiAdm :=
  { s with is_running := true, liveTasks := s.liveTasks + 1 }

/-- One scheduler step of the api variant.  `force_translation` first runs
`stop_current_task` when `is_running` is set, sleeps 0.1 s, and then calls
`_start_translation_task` unconditionally; the previously live body keeps
running until its own backend call returns. -/
def apiStep (s : ApiAdm) : ApiEv → ApiAdm
  | .monitorTick => if s.is_running then s else apiStartTask s
  | .force => apiStartTask (if s.is_running then apiStopCurrent s else s)
  | .stopTask => apiStopCurrent s
  | .taskEnd => { s with is_running := false, liveTasks := s.liveTasks - 1 }

/-- Run the api admission model over a trace of scheduler events. -/
def apiRun (s : ApiAdm) : List ApiEv → ApiAdm
  | [] => s
  | e :: es => apiRun (apiStep s e) es

/-- The state of a freshly constructed `TranslationService` (src/api.py
lines 18-38). -/
def apiInit : ApiAdm := ⟨false, none, 0⟩

/-- A trace consisting only of monitor-loop ticks and task completions,
i.e. an execution in which the monitor loop is the only trigger path. -/
def monitorOnly (tr : List ApiEv) : Bool :=
  tr.all (fun e => e == .monitorTick || e == .taskEnd)

/-- The invariant coupling the api `is_running` flag with the number of
live task bodies: it holds in executions driven by the monitor loop
alone. -/
def apiGood (s : ApiAdm) : Prop :=
  s.liveTasks ≤ 1 ∧ s.is_running = (s.liveTasks == 1)

instance (s : ApiAdm) : Decidable (apiGood s) := by
  unfold apiGood; infer_instance

/-- Responses of POST /translate/force in the web variant
(src/app/routers/endpoints/translation.py, lines 114-128): a 400 error when
no window is selected, otherwise a success message with a
`one_time_translation_task` scheduled unconditionally.  The endpoint has no
other outcome; in particular no AlreadyRunning rejection exists anywhere in
the sources. -/
inductive WebResp where
  | success
  | error400
  deriving DecidableEq, Repr

/-- Admission-relevant state of the web variant: whether a window is
selected, the `is_running` flag of the shared task state, and the number of
`one_time_translation_task` bodies currently live (an observation of the
interleaving; `one_time_translation_task`, lines 153-203, performs no
admission check before setting `is_running` and starting work). -/
structure WebAdm where
  windowSelected : Bool
  is_running : Bool
  liveTasks : Nat
  deriving DecidableEq, Repr

/-- POST /translate/force in the web variant: reject with a 400 error only
when no window is selected; otherwise schedule a new
`one_time_translation_task`, which marks the task state running and
executes alongside any other live body. -/
def webForce (s : WebAdm) : WebAdm × WebResp :=
  if !s.windowSelected then (s, .error400)
  else ({ s with is_running := true, liveTasks := s.liveTasks + 1 }, .success)

/-- Inputs of one monitor-loop cycle, standing for the behaviour of the
frame source and the similarity gate: the source invisible or missing, the
screenshot call raising, the comparison raising, or a captured frame with
the gate verdict against the cached frame. -/
inductive MonCycle where
  | invisible
  | captureRaise
  | compareRaise
  | frame (similar : Bool)
  deriving DecidableEq, Repr

/-- Outcome of running a monitor loop over a list of cycle inputs:
how many cycles reached the remember-and-start step, and whether the loop
exited through its exception path before the input list was exhausted. -/
structure LoopRes where
  processed : Nat
  crashed : Bool
  deriving DecidableEq, Repr

/-- `_monitor_loop` in src/api.py (lines 166-201): the try block encloses
the whole while loop, so a screenshot or comparison exception leaves the
loop; the except block broadcasts "Monitor loop error" and the coroutine
ends without retrying.  `hasCache` models `last_image` being set with
`last_hwnd` equal to the selected window. -/
def apiMonLoop (hasCache : Bool) : List MonCycle → LoopRes
  | [] => ⟨0, false⟩
  | c :: rest =>
    match c with
    | .invisible => apiMonLoop hasCache rest
    | .captureRaise => ⟨0, true⟩
    | .compareRaise => ⟨0, true⟩
    | .frame similar =>
      if hasCache && similar then apiMonLoop hasCache rest
      else
        let r := apiMonLoop true rest
        ⟨r.processed + 1, r.crashed⟩

/-- `OCRApp.ocr_loop` in src/gui.py (lines 364-396): the try block is
inside the while loop and wraps the capture, the comparison and the OCR
call; an exception is shown in a message box and the loop sleeps and
retries on the next tick. -/
def guiOcrLoop (hasCache : Bool) : List MonCycle → LoopRes
  | [] => ⟨0, false⟩
  | c :: rest =>
    match c with
    | .invisible => guiOcrLoop hasCache rest
    | .captureRaise => guiOcrLoop hasCache rest
    | .compareRaise => guiOcrLoop hasCache rest
    | .frame similar =>
      if hasCache && similar then guiOcrLoop hasCache rest
      else
        let r := guiOcrLoop true rest
        ⟨r.processed + 1, r.crashed⟩

/-- The frame cache of `ScreenTranslationService`
(src/app/services/screen_service.py, lines 26-28): the last processed image
and the window handle it came from. -/
structure SvcCache where
  lastImage : Option Nat
  lastHwnd : Option Nat
  deriving DecidableEq, Repr

/-- Outcome of taking a fresh screenshot and comparing it with the cached
image at the configured similarity threshold: either the attempt raises, or
it returns the gate verdict. -/
inductive Probe where
  | raises
  | ok (similar : Bool)
  deriving DecidableEq, Repr

/-- `ScreenTranslationService.should_process_new_image`
(src/app/services/screen_service.py, lines 262-301): process when there is
no cached image or the cached image came from a different window; skip when
the window is invisible; otherwise capture and compare, processing on a
raised exception (the except path returns True) and skipping exactly when
the gate reports similar. -/
def shouldProcessNewImage (c : SvcCache) (hwnd : Nat) (visible : Bool)
    (probe : Probe) : Bool :=
  if c.lastImage.isNone || c.lastHwnd != some hwnd then true
  else if !visible then false
  else
    match probe with
    | .raises => true
    | .ok similar => !similar

/-- The gui selection state (src/gui.py): the monitored window handle and
the cached image.  The cache records no source identity. -/
structure GuiSel where
  selectedHwnd : Option Nat
  lastImage : Option Nat
  deriving DecidableEq, Repr

/-- `OCRApp.select_hwnd` (src/gui.py, lines 276-286): updates
`selected_hwnd` and the header text only; `self.last_image` is left as it
is. -/
def guiSelectHwnd (s : GuiSel) (h : Nat) : GuiSel :=
  { s with selectedHwnd := some h }

/-- The similarity gate of one gui `ocr_loop` cycle (src/gui.py, lines
371-375): the freshly captured frame is processed unless a cached image
exists and `images_are_similar` reports it similar to that cached image,
whichever window the cached image came from. -/
def guiCycleProcesses (s : GuiSel) (similarToCache : Bool) : Bool :=
  match s.lastImage with
  | none => true
  | some _ => !similarToCache

/-- Selection and cache state of `TranslationService` in src/api.py:
`selected_hwnd`, `last_image` and `last_hwnd`. -/
structure ApiSel where
  selectedHwnd : Option Nat
  lastImage : Option Nat
  lastHwnd : Option Nat
  deriving DecidableEq, Repr

/-- The desktop-window sentinel returned by `win32gui.GetDesktopWindow`. -/
def desktopHwnd : Nat := 0

/-- `TranslationService.select_window` (src/api.py, lines 92-102): a null
handle selects the desktop window; when the newly selected handle differs
from the cached `last_hwnd`, the cached image is dropped and `last_hwnd` is
updated. -/
def apiSelectWindow (s : ApiSel) (hwnd : Option Nat) : ApiSel :=
  let sel := hwnd.getD desktopHwnd
  let s1 := { s with selectedHwnd := some sel }
  if s1.lastHwnd != some sel then { s1 with lastImage := none, lastHwnd := some sel }
  else s1

/-- The similarity branch of one `_monitor_loop` cycle (src/api.py, lines
179-195): the fresh frame is processed unless a cached image exists, it was
cached for the currently selected window, and the gate reports similar. -/
def apiCycleProcesses (s : ApiSel) (similar : Bool) : Bool :=
  if s.lastImage.isSome && s.lastHwnd == s.selectedHwnd then !similar else true

/-- Whether a delivery attempt succeeded. -/
def exOk : Except Unit Unit → Bool
  | .ok _ => true
  | .error _ => false

/-- The try/except around one `await connection.send_json(message)` in
`ConnectionManager.broadcast` (src/app/routers/router.py, lines 44-49):
the raised exception of a failing send is caught, logged and turned into a
mark for the disconnected list, never rethrown.  An uncaught exception
would be an `Except.error` result here. -/
def broadcastCatch (send : Nat → Except Unit Unit) (c : Nat) :
    Except Unit Bool :=
  match send c with
  | .ok _ => Except.ok true
  | .error _ => Except.ok false

/-- The per-connection send loop of `ConnectionManager.broadcast`
(src/app/routers/router.py, lines 43-49), in the exception monad.
Connections are identified by naturals; `send c` is the outcome of
`await connection.send_json(message)`.  Returns the list of connections
that received the message and the list of connections collected as
disconnected, both in iteration order. -/
def broadcastGoE (send : Nat → Except Unit Unit) :
    List Nat → Except Unit (List Nat × List Nat)
  | [] => Except.ok ([], [])
  | c :: rest =>
    (broadcastCatch send c).bind fun delivered =>
      (broadcastGoE send rest).bind fun dx =>
        Except.ok (if delivered then (c :: dx.1, dx.2) else (dx.1, c :: dx.2))

/-- `ConnectionManager.broadcast` (src/app/routers/router.py, lines 38-56):
after the send loop, each collected disconnected client is removed from the
active-connection list by `disconnect`, which deletes its first occurrence
when present.  The result is the pair of the delivered list and the
remaining active-connection list, inside the exception monad so that an
escaping exception would be visible as an `Except.error`
(`broadcast_message` in src/api.py, lines 49-62, is the same shape with a
bare except and `remove_connection`). -/
def broadcastE (conns : List Nat) (send : Nat → Except Unit Unit) :
    Except Unit (List Nat × List Nat) :=
  (broadcastGoE send conns).bind fun dx =>
    Except.ok (dx.1, List.foldl (fun acc c => acc.erase c) conns dx.2)

/-- The first SSIM stabilizing constant `(0.01 * 255)^2`
(src/app/utils/image.py, line 156). -/
def ssimK1 : ℚ := (255 / 100) ^ 2

/-- The second SSIM stabilizing constant `(0.03 * 255)^2`
(src/app/utils/image.py, line 157). -/
def ssimK2 : ℚ := (3 * 255 / 100) ^ 2

/-- Mean of a list of pixel values (`np.mean`); on the empty list the model
divides by zero, which in ℚ yields 0. -/
def meanQ (l : List ℚ) : ℚ := l.sum / l.length

/-- Variance of a list of pixel values as computed on
src/app/utils/image.py lines 145-150: the mean of the squared deviations
from the mean. -/
def varQ (l : List ℚ) : ℚ := meanQ (l.map (fun x => (x - meanQ l) ^ 2))

/-- Covariance of two equally long lists of pixel values as computed on
src/app/utils/image.py line 153: the mean of the products of the
deviations. -/
def covQ (a b : List ℚ) : ℚ :=
  meanQ (List.zipWith (fun x y => (x - meanQ a) * (y - meanQ b)) a b)

/-- The global single-channel SSIM score of src/app/utils/image.py, lines
139-162, over the grayscale pixel vectors of the two frames.  Pixel values
are exact rationals; a frame is its flattened grayscale vector after the
conversion and resize steps, which are the identity when the two inputs are
the same frame. -/
def ssimScore (a b : List ℚ) : ℚ :=
  ((2 * meanQ a * meanQ b + ssimK1) * (2 * covQ a b + ssimK2)) /
    ((meanQ a ^ 2 + meanQ b ^ 2 + ssimK1) * (varQ a + varQ b + ssimK2))

/-- `images_are_similar` (src/app/utils/image.py, lines 105-169): the two
frames are similar when the SSIM score reaches the threshold.
src/translator.py lines 33-38 and src/ocr.py compute the same verdict
through the skimage implementation of SSIM. -/
def imagesAreSimilar (a b : List ℚ) (threshold : ℚ) : Bool :=
  decide (threshold ≤ ssimScore a b)

/-- The model-id pair carried by the web settings
(src/app/models/base.py, class ModelSettings). -/
structure ModelSettings where
  ocr_model_id : String
  translation_model_id : String
  deriving DecidableEq, Repr

/-- `AppSettings` of the api variant (src/models.py): the three numeric
fields plus the theme, whose payload is irrelevant here. -/
structure ApiSettings where
  check_interval : Nat
  similarity_threshold : ℚ
  timeout : Nat
  darkTheme : Bool
  deriving DecidableEq, Repr

/-- `AppSettings` of the web variant (src/app/models/base.py): the three
numeric fields plus the model ids. -/
structure WebSettings where
  check_interval : Nat
  similarity_threshold : ℚ
  timeout : Nat
  models : ModelSettings
  deriving DecidableEq, Repr

/-- `SettingsUpdateRequest` (src/models.py lines 17-20 and, for the web
variant restricted to the numeric fields, src/app/models/requests.py): a
field is `none` when the request does not supply it. -/
structure SettingsUpdateReq where
  check_interval : Option Nat
  similarity_threshold : Option ℚ
  timeout : Option Nat
  deriving DecidableEq, Repr

/-- `TranslationService.update_settings` (src/api.py, lines 123-129): each
of the three request fields overwrites the corresponding settings field
exactly when it is supplied. -/
def apiUpdateSettings (s : ApiSettings) (u : SettingsUpdateReq) : ApiSettings :=
  let s1 := match u.check_interval with
    | some v => { s with check_interval := v }
    | none => s
  let s2 := match u.similarity_threshold with
    | some v => { s1 with similarity_threshold := v }
    | none => s1
  match u.timeout with
  | some v => { s2 with timeout := v }
  | none => s2

/-- The fields of `TranslationService` surrounding the settings object
(src/api.py, lines 18-38), to express that the update touches nothing
else. -/
structure ApiServiceState where
  settings : ApiSettings
  selectedHwnd : Option Nat
  lastImage : Option Nat
  lastHwnd : Option Nat
  is_running : Bool
  resultCount : Nat
  monitoringPaused : Bool
  deriving DecidableEq, Repr

/-- The settings-update operation at the service level: it assigns only
fields of `self.settings`. -/
def apiServiceUpdateSettings (st : ApiServiceState) (u : SettingsUpdateReq) :
    ApiServiceState :=
  { st with settings := apiUpdateSettings st.settings u }

/-- The web `update_settings` endpoint
(src/app/routers/endpoints/status.py, lines 66-79): it iterates over the
fields the request supplies (`model_dump` with unset fields excluded) and
assigns each matching attribute of the stored settings.  A request that
supplies only a subset of check_interval, similarity_threshold and timeout
is one whose models field is absent, so the models field is untouched. -/
def webUpdateSettings (s : WebSettings) (u : SettingsUpdateReq) : WebSettings :=
  let s1 := match u.check_interval with
    | some v => { s with check_interval := v }
    | none => s
  let s2 := match u.similarity_threshold with
    | some v => { s1 with similarity_threshold := v }
    | none => s1
  match u.timeout with
  | some v => { s2 with timeout := v }
  | none => s2

/-! ## Helper lemmas -/

/-- No step of the api admission model assigns `current_future`: the field
keeps whatever value it had. -/
lemma apiStep_currentFuture (s : ApiAdm) (e : ApiEv) :
    (apiStep s e).currentFuture = s.currentFuture := by
  cases e with
  | monitorTick =>
    by_cases h : s.is_running <;> simp [apiStep, h, apiStartTask]
  | force =>
    by_cases h : s.is_running <;> simp [apiStep, h, apiStartTask, apiStopCurrent]
  | stopTask => simp [apiStep, apiStopCurrent]
  | taskEnd => simp [apiStep]

/-- Along any trace, `current_future` keeps its initial value. -/
lemma apiRun_currentFuture (s : ApiAdm) (tr : List ApiEv) :
    (apiRun s tr).currentFuture = s.currentFuture := by
  induction tr generalizing s with
  | nil => rfl
  | cons e es ih => rw [apiRun, ih, apiStep_currentFuture]

/-- A monitor tick or a task completion preserves the coupling between the
`is_running` flag and the number of live task bodies. -/
lemma apiGood_step (s : ApiAdm) (e : ApiEv) (hg : apiGood s)
    (he : e = ApiEv.monitorTick ∨ e = ApiEv.taskEnd) :
    apiGood (apiStep s e) := by
  obtain ⟨h1, h2⟩ := hg
  rcases he with rfl | rfl
  · by_cases hr : s.is_running
    · simpa [apiStep, hr] using ⟨h1, h2⟩
    · rw [Bool.not_eq_true] at hr
      have h3 : ¬ s.liveTasks = 1 := by
        intro h
        rw [h, hr] at h2
        simp at h2
      have h0 : s.liveTasks = 0 := by omega
      simp [apiStep, hr, apiStartTask, apiGood, h0]
  · have h0 : s.liveTasks - 1 = 0 := by omega
    simp [apiStep, apiGood, h0]

/-- In an execution driven by the monitor loop alone, the coupling
invariant is preserved along the whole trace. -/
lemma apiRun_monitorOnly (s : ApiAdm) (tr : List ApiEv) (hg : apiGood s)
    (hm : monitorOnly tr = true) : apiGood (apiRun s tr) := by
  induction tr generalizing s with
  | nil => exact hg
  | cons e es ih =>
    rw [monitorOnly, List.all_cons, Bool.and_eq_true] at hm
    obtain ⟨he, hes⟩ := hm
    have he2 : e = ApiEv.monitorTick ∨ e = ApiEv.taskEnd := by
      rw [Bool.or_eq_true, beq_iff_eq, beq_iff_eq] at he
      exact he
    exact ih (apiStep s e) (apiGood_step s e hg he2) hes

/-- The gui ocr loop never leaves through its exception path: every cycle
input is consumed and the crash flag stays clear. -/
lemma guiOcrLoop_crashed (hasCache : Bool) (cycles : List MonCycle) :
    (guiOcrLoop hasCache cycles).crashed = false := by
  induction cycles generalizing hasCache with
  | nil => rfl
  | cons c rest ih =>
    cases c with
    | invisible => simpa [guiOcrLoop] using ih hasCache
    | captureRaise => simpa [guiOcrLoop] using ih hasCache
    | compareRaise => simpa [guiOcrLoop] using ih hasCache
    | frame similar =>
      by_cases h : (hasCache && similar) = true
      · simpa [guiOcrLoop, h] using ih hasCache
      · simpa [guiOcrLoop, h] using ih true

/-- Erasing elements that are all different from the head leaves the head
in place. -/
lemma foldl_erase_cons_of_ne (a : Nat) (l bs : List Nat)
    (h : ∀ b ∈ bs, b ≠ a) :
    List.foldl (fun acc c => acc.erase c) (a :: l) bs =
      a :: List.foldl (fun acc c => acc.erase c) l bs := by
  induction bs generalizing l with
  | nil => rfl
  | cons b bs ih =>
    have hba : ¬ (a == b) = true := by
      simp only [beq_iff_eq]
      exact fun hab => h b (List.mem_cons_self b bs) (hab ▸ rfl)
    rw [List.foldl_cons, List.foldl_cons, List.erase_cons_tail hba]
    exact ih (l.erase b) (fun b2 hb2 => h b2 (List.mem_cons_of_mem b hb2))

/-- Removing, one by one, the elements a predicate selects is the same as
filtering by its negation. -/
lemma foldl_erase_filter (p : Nat → Bool) (l : List Nat) :
    List.foldl (fun acc c => acc.erase c) l (l.filter p) =
      l.filter (fun c => !p c) := by
  induction l with
  | nil => rfl
  | cons a t ih =>
    by_cases hp : p a = true
    · rw [List.filter_cons_of_pos hp, List.foldl_cons, List.erase_cons_head,
        ih, List.filter_cons_of_neg (by simp [hp])]
    · rw [List.filter_cons_of_neg hp,
        foldl_erase_cons_of_ne a t (t.filter p)
          (fun b hb hba => hp (hba ▸ (List.mem_filter.mp hb).2)),
        ih, List.filter_cons_of_pos (by simp [hp])]

/-- The send loop delivers to exactly the subscribers whose send succeeds
and collects exactly the others, never letting an exception escape. -/
lemma broadcastGoE_eq (send : Nat → Except Unit Unit) (l : List Nat) :
    broadcastGoE send l =
      Except.ok (l.filter (fun c => exOk (send c)),
        l.filter (fun c => !exOk (send c))) := by
  induction l with
  | nil => rfl
  | cons c rest ih =>
    rw [broadcastGoE, ih]
    cases h : send c with
    | ok u => simp [broadcastCatch, h, Except.bind, exOk]
    | error u => simp [broadcastCatch, h, Except.bind, exOk]

/-- The covariance of a pixel vector with itself is its variance: the
products of deviations degenerate to squared deviations. -/
lemma covQ_self (f : List ℚ) : covQ f f = varQ f := by
  rw [covQ, varQ, List.zipWith_same]
  have : (fun x : ℚ => (x - meanQ f) * (x - meanQ f)) =
      fun x : ℚ => (x - meanQ f) ^ 2 := by
    funext x
    ring
  rw [this]

/-- The variance is a mean of squares, hence nonnegative. -/
lemma varQ_nonneg (f : List ℚ) : 0 ≤ varQ f := by
  rw [varQ, meanQ]
  apply div_nonneg
  · apply List.sum_nonneg
    intro x hx
    obtain ⟨y, _, rfl⟩ := List.mem_map.mp hx
    exact sq_nonneg _
  · exact_mod_cast Nat.zero_le _

/-- The SSIM score of a frame against itself is exactly 1: the numerator
and the denominator coincide and the stabilizing constants keep the
denominator positive. -/
lemma ssimScore_self (f : List ℚ) : ssimScore f f = 1 := by
  rw [ssimScore, covQ_self]
  have hK1 : (0 : ℚ) < ssimK1 := by norm_num [ssimK1]
  have hK2 : (0 : ℚ) < ssimK2 := by norm_num [ssimK2]
  have hv := varQ_nonneg f
  have hm := sq_nonneg (meanQ f)
  have hpos : 0 < (meanQ f ^ 2 + meanQ f ^ 2 + ssimK1) *
      (varQ f + varQ f + ssimK2) := by
    apply mul_pos <;> nlinarith
  have hnum : (2 * meanQ f * meanQ f + ssimK1) * (2 * varQ f + ssimK2) =
      (meanQ f ^ 2 + meanQ f ^ 2 + ssimK1) * (varQ f + varQ f + ssimK2) := by
    ring
  rw [hnum, div_self (ne_of_gt hpos)]

/-! ## Claims -/

/-- Claim C1, counterexample.  In the web variant, a second
POST /translate/force issued while a translation task is live (is_running
true, one task body executing) is answered with success, not with an
AlreadyRunning failure, and a second task body starts running concurrently:
the single-flight admission the claim asserts does not exist. -/
theorem C1_counterexample :
    (webForce ⟨true, false, 0⟩).1.is_running = true ∧
    (webForce ⟨true, false, 0⟩).1.liveTasks = 1 ∧
    (webForce (webForce ⟨true, false, 0⟩).1).2 = WebResp.success ∧
    (webForce (webForce ⟨true, false, 0⟩).1).1.liveTasks = 2 := by
  decide

/-- Claim C1, amended.  The monitor loop alone does enforce single flight:
its guard starts a task only when is_running is clear, so along any trace
made of monitor ticks and task completions, starting from a state where
the flag agrees with the number of live bodies, at most one task body is
ever live.  No start path anywhere fails with AlreadyRunning, and the
force paths of both variants can start a task while one is live. -/
theorem C1_amended (s : ApiAdm) (tr : List ApiEv) (hg : apiGood s)
    (hm : monitorOnly tr = true) : (apiRun s tr).liveTasks ≤ 1 :=
  (apiRun_monitorOnly s tr hg hm).1

/-- Witness for the amended claim C1, at the initial service state and a
concrete monitor-only trace. -/
theorem C1_amended_witness :
    apiGood apiInit ∧
    monitorOnly [ApiEv.monitorTick, ApiEv.taskEnd, ApiEv.monitorTick] = true ∧
    (apiRun apiInit [ApiEv.monitorTick, ApiEv.taskEnd, ApiEv.monitorTick]).liveTasks ≤ 1 :=
  ⟨by decide, by decide,
    C1_amended apiInit [ApiEv.monitorTick, ApiEv.taskEnd, ApiEv.monitorTick]
      (by decide) (by decide)⟩

/-- Claim C2.  Once stop has been requested, progress events for the task
keep being published and the task still transitions to completed: running
the web task system on the emissions of a concrete translate_screen run
(task id 7, extracted text "hi", one streamed chunk "Bonjour") with a
stop_task request after two emissions, the cancel flag is set with two
events published, yet the remaining three events for id 7 are published
afterwards and the last one carries stage completed.  The pipeline never
reads translation_task_cancel, and stop_current_task in the api variant
cancels a future that is never assigned. -/
theorem C2_bug :
    (webTaskRun ⟨false, true, (translateScreenModel 7 45 none "hi" ["Bonjour"]).1, []⟩
        [WebTaskEv.emit, WebTaskEv.emit, WebTaskEv.stop]).cancelFlag = true ∧
    (webTaskRun ⟨false, true, (translateScreenModel 7 45 none "hi" ["Bonjour"]).1, []⟩
        [WebTaskEv.emit, WebTaskEv.emit, WebTaskEv.stop]).published.length = 2 ∧
    (webTaskRun ⟨false, true, (translateScreenModel 7 45 none "hi" ["Bonjour"]).1, []⟩
        [WebTaskEv.emit, WebTaskEv.emit, WebTaskEv.stop,
          WebTaskEv.emit, WebTaskEv.emit, WebTaskEv.emit]).published =
      (translateScreenModel 7 45 none "hi" ["Bonjour"]).1 ∧
    (translateScreenModel 7 45 none "hi" ["Bonjour"]).1.getLast? =
      some ⟨7, "Bonjour", false, "completed"⟩ ∧
    (∀ e ∈ (translateScreenModel 7 45 none "hi" ["Bonjour"]).1, e.id = 7) := by
  decide

/-- Claim C3, counterexample.  When the extraction backend returns the
empty string, the run of translate_screen ends with stage error, not with
stage completed as the claim states. -/
theorem C3_counterexample :
    (translateScreenModel 7 45 none "" ["Bonjour"]).2.1.stage = "error" ∧
    ¬ (translateScreenModel 7 45 none "" ["Bonjour"]).2.1.stage = "completed" := by
  decide

/-- Claim C3, amended.  Empty extraction ends the run with a terminal
result (is_streaming false) carrying the sentinel text "No text detected
in image", but in stage error rather than completed; the translation
backend is not invoked and no translating-stage event is emitted. -/
theorem C3_amended (tid timeout : Nat) (streamYields : List String) :
    (translateScreenModel tid timeout none "" streamYields).2.1 =
      ⟨tid, "No text detected in image", false, "error"⟩ ∧
    (translateScreenModel tid timeout none "" streamYields).1 =
      [⟨tid, "", true, "capturing"⟩, ⟨tid, "", true, "ocr"⟩,
        ⟨tid, "No text detected in image", false, "error"⟩] ∧
    (translateScreenModel tid timeout none "" streamYields).2.2 =
      ⟨some timeout, none⟩ := by
  refine ⟨?_, ?_, ?_⟩ <;> simp [translateScreenModel]

/-- Claim C4, counterexample.  When the translation backend times out, the
stream yields a single empty string and translate_text returns it; the run
then ends with stage completed and the fallback text "Translation failed",
not with stage error as the claim states. -/
theorem C4_counterexample :
    (translateScreenModel 7 10 none "hello" [""]).2.1 =
      ⟨7, "Translation failed", false, "completed"⟩ ∧
    ¬ (translateScreenModel 7 10 none "hello" [""]).2.1.stage = "error" := by
  decide

/-- Claim C4, amended.  Every backend invocation does receive the explicit
timeout from the settings: the OCR call always, and the translation call
whenever it is reached.  But a translation-backend timeout is swallowed on
the way back (translate_text returns the empty string), and the task then
ends in stage completed carrying "Translation failed" rather than in stage
error; only an extraction-side timeout (empty extraction) ends the run in
stage error. -/
theorem C4_amended (tid timeout : Nat) (ocrText : String)
    (streamYields : List String) (h : ocrText ≠ "") :
    (translateScreenModel tid timeout none ocrText streamYields).2.2 =
      ⟨some timeout, some timeout⟩ ∧
    (translateScreenModel tid timeout none "" streamYields).2.2.ocrTimeout =
      some timeout ∧
    (translateScreenModel tid timeout none ocrText [""]).2.1 =
      ⟨tid, "Translation failed", false, "completed"⟩ := by
  refine ⟨?_, ?_, ?_⟩ <;> simp [translateScreenModel, h]

/-- Witness for the amended claim C4, at a concrete extracted text and
stream. -/
theorem C4_amended_witness :
    ("hello" ≠ "") ∧
    (translateScreenModel 7 10 none "hello" ["Bonjour"]).2.2 = ⟨some 10, some 10⟩ ∧
    (translateScreenModel 7 10 none "" ["Bonjour"]).2.2.ocrTimeout = some 10 ∧
    (translateScreenModel 7 10 none "hello" [""]).2.1 =
      ⟨7, "Translation failed", false, "completed"⟩ :=
  ⟨by decide, C4_amended 7 10 "hello" ["Bonjour"] (by decide)⟩

/-- Claim C5, counterexample.  In the api variant the try block is outside
the while loop: a screenshot exception during the first cycle terminates
the monitor loop, and a later processable frame is never handled — while
the gui loop on the same inputs survives and processes it. -/
theorem C5_counterexample :
    (apiMonLoop false [MonCycle.captureRaise, MonCycle.frame false]).crashed = true ∧
    (apiMonLoop false [MonCycle.captureRaise, MonCycle.frame false]).processed = 0 ∧
    (guiOcrLoop false [MonCycle.captureRaise, MonCycle.frame false]).crashed = false ∧
    (guiOcrLoop false [MonCycle.captureRaise, MonCycle.frame false]).processed = 1 := by
  decide

/-- Claim C5, amended.  The skip-and-retry failure semantics holds for the
gui ocr loop, whose per-cycle try/except absorbs capture and comparison
exceptions so the loop never leaves through its exception path, and for the
web monitoring path, where a raising capture or comparison inside
should_process_new_image is caught and answered with "process"; it fails
for the api monitor loop, which terminates on such exceptions. -/
theorem C5_amended :
    (∀ (hasCache : Bool) (cycles : List MonCycle),
      (guiOcrLoop hasCache cycles).crashed = false) ∧
    (∀ (c : SvcCache) (hwnd : Nat),
      shouldProcessNewImage c hwnd true Probe.raises = true) := by
  refine ⟨guiOcrLoop_crashed, ?_⟩
  intro c hwnd
  rw [shouldProcessNewImage]
  by_cases h : (c.lastImage.isNone || c.lastHwnd != some hwnd) = true
  · simp [h]
  · simp [h]

/-- Claim C6, counterexample.  In the gui variant, after the monitored
source changes from window 1 (whose frame, image 10, is still cached) to
window 2, the very next cycle compares the newly captured frame against the
stale cached image and skips it when the gate reports similar: the cycle
does not process the frame even though the source changed. -/
theorem C6_counterexample :
    (guiSelectHwnd ⟨some 1, some 10⟩ 2).selectedHwnd = some 2 ∧
    (guiSelectHwnd ⟨some 1, some 10⟩ 2).lastImage = some 10 ∧
    guiCycleProcesses (guiSelectHwnd ⟨some 1, some 10⟩ 2) true = false := by
  decide

/-- Claim C6, amended.  Cache invalidation on source change holds in the
api variant, where select_window drops the cached image whenever the
selected handle differs from the cached one, so the next cycle processes
whatever the gate says, and in the web service, where
should_process_new_image answers "process" whenever the handle differs from
the cached last_hwnd regardless of visibility or similarity; it fails in
the gui variant, whose cache keeps no source identity and is not cleared on
selection. -/
theorem C6_amended :
    (∀ (s : ApiSel) (hwnd : Option Nat) (similar : Bool),
      s.lastHwnd ≠ some (hwnd.getD desktopHwnd) →
      apiCycleProcesses (apiSelectWindow s hwnd) similar = true) ∧
    (∀ (c : SvcCache) (hwnd : Nat) (visible : Bool) (probe : Probe),
      c.lastHwnd ≠ some hwnd →
      shouldProcessNewImage c hwnd visible probe = true) := by
  constructor
  · intro s hwnd similar h
    rw [apiSelectWindow, apiCycleProcesses]
    simp only [bne_iff_ne, ne_eq, h, not_false_eq_true, if_true]
    simp
  · intro c hwnd visible probe h
    simp [shouldProcessNewImage, h]

/-- Witness for the amended claim C6, at a cache filled from window 1 and
a selection of window 2. -/
theorem C6_amended_witness :
    ((⟨some 1, some 10, some 1⟩ : ApiSel).lastHwnd ≠
      some ((some 2 : Option Nat).getD desktopHwnd)) ∧
    apiCycleProcesses (apiSelectWindow ⟨some 1, some 10, some 1⟩ (some 2)) true = true ∧
    ((⟨some 10, some 1⟩ : SvcCache).lastHwnd ≠ some 2) ∧
    shouldProcessNewImage ⟨some 10, some 1⟩ 2 false (Probe.ok true) = true :=
  ⟨by decide, C6_amended.1 ⟨some 1, some 10, some 1⟩ (some 2) true (by decide),
    by decide, C6_amended.2 ⟨some 10, some 1⟩ 2 false (Probe.ok true) (by decide)⟩

/-- Claim C7.  force_translation while a monitor-triggered task is running
neither rejects with AlreadyRunning nor actually cancels and restarts: the
cancel branch of stop_current_task acts on current_future, which along
every trace is still None because nothing ever assigns it, so the old task
body keeps executing; after a monitor tick followed by a force request, two
task bodies are live concurrently. -/
theorem C7_bug :
    (∀ tr : List ApiEv, (apiRun apiInit tr).currentFuture = none) ∧
    (apiRun apiInit [ApiEv.monitorTick]).is_running = true ∧
    (apiRun apiInit [ApiEv.monitorTick]).liveTasks = 1 ∧
    (apiRun apiInit [ApiEv.monitorTick, ApiEv.force]).liveTasks = 2 :=
  ⟨fun tr => (apiRun_currentFuture apiInit tr).trans rfl,
    by decide, by decide, by decide⟩

/-- Claim C8.  For every connection list and every delivery behaviour,
broadcast returns normally (no exception escapes the per-connection
try/except), the message is delivered to exactly the subscribers whose
send succeeds — so the failure of one subscriber does not affect the others —
and the failing subscribers are exactly the ones removed from the active
connection list. -/
theorem C8_broadcast (conns : List Nat) (send : Nat → Except Unit Unit) :
    broadcastE conns send =
      Except.ok (conns.filter (fun c => exOk (send c)),
        conns.filter (fun c => exOk (send c))) := by
  rw [broadcastE, broadcastGoE_eq]
  have hrem : List.foldl (fun acc c => acc.erase c) conns
      (conns.filter (fun c => !exOk (send c))) =
      conns.filter (fun c => exOk (send c)) := by
    rw [foldl_erase_filter (fun c => !exOk (send c)) conns]
    simp
  simp [Except.bind, hrem]

/-- Claim C9.  A frame is always similar to itself: for every grayscale
pixel vector and every threshold at most 1, the SSIM gate of
images_are_similar reports similar, because the score of a frame against
itself is exactly 1. -/
theorem C9_similarity (f : List ℚ) (t : ℚ) (ht : t ≤ 1) :
    imagesAreSimilar f f t = true := by
  rw [imagesAreSimilar, ssimScore_self]
  exact decide_eq_true ht

/-- Witness for claim C9, at a concrete three-pixel frame and the default
threshold 0.90. -/
theorem C9_similarity_witness :
    ((9 : ℚ) / 10 ≤ 1) ∧
    imagesAreSimilar [0, 255, 17] [0, 255, 17] ((9 : ℚ) / 10) = true :=
  ⟨by norm_num, C9_similarity [0, 255, 17] ((9 : ℚ) / 10) (by norm_num)⟩

/-- Claim C10.  A settings update changes exactly the supplied fields: in
both variants each supplied field takes the requested value and each
absent field keeps its previous value, the fields the request cannot carry
(theme, model ids) are untouched, and in the api service every field
outside the settings object is untouched as well. -/
theorem C10_update_settings (st : ApiServiceState) (u : SettingsUpdateReq)
    (w : WebSettings) :
    (apiServiceUpdateSettings st u).settings.check_interval =
      u.check_interval.getD st.settings.check_interval ∧
    (apiServiceUpdateSettings st u).settings.similarity_threshold =
      u.similarity_threshold.getD st.settings.similarity_threshold ∧
    (apiServiceUpdateSettings st u).settings.timeout =
      u.timeout.getD st.settings.timeout ∧
    (apiServiceUpdateSettings st u).settings.darkTheme = st.settings.darkTheme ∧
    (apiServiceUpdateSettings st u).selectedHwnd = st.selectedHwnd ∧
    (apiServiceUpdateSettings st u).lastImage = st.lastImage ∧
    (apiServiceUpdateSettings st u).lastHwnd = st.lastHwnd ∧
    (apiServiceUpdateSettings st u).is_running = st.is_running ∧
    (apiServiceUpdateSettings st u).resultCount = st.resultCount ∧
    (apiServiceUpdateSettings st u).monitoringPaused = st.monitoringPaused ∧
    (webUpdateSettings w u).check_interval =
      u.check_interval.getD w.check_interval ∧
    (webUpdateSettings w u).similarity_threshold =
      u.similarity_threshold.getD w.similarity_threshold ∧
    (webUpdateSettings w u).timeout = u.timeout.getD w.timeout ∧
    (webUpdateSettings w u).models = w.models := by
  obtain ⟨ci, sth, tmo⟩ := u
  cases ci <;> cases sth <;> cases tmo <;>
    simp [apiServiceUpdateSettings, apiUpdateSettings, webUpdateSettings]
